import Mathlib

/-
Verification of the multi-account SMTP bulk-sender core (src/app.py) against
its natural-language specification.

Shallow embedding notes:
  * Python strings are modelled as `List Char` (`Str`).  `.strip()` and
    `.lower()` are modelled over ASCII (Lean `Char.isWhitespace` and
    `Char.toLower`); the inputs exercised by the claims are ASCII.
  * The JSON counter file `sent_counters.json` is modelled as an association
    list from account identifier to a `{date, sent_today}` record; the three
    file conditions (absent, unparseable, readable) are the `CounterBacking`
    inductive.  `read_sent_counters` returns `Except` because an unparseable
    file makes Python `json.load` raise.
  * The outcome of one SMTP delivery attempt (`send_via_smtp`) is network
    dependent; it is an oracle parameter `outcome : Str -> Str -> SendR`
    giving the result per (recipient, account identifier).
  * Timestamp, uuid, name and provider columns of a log row are environment
    metadata and are not modelled; the row keeps recipient, account, status
    and error, which the claims are about.
  * The Streamlit pause/stop session flags are initialised to False at the
    start of a run (src/app.py lines 533-534) and are only mutated by UI
    button callbacks in other reruns, so an uninterrupted run keeps them
    False; the embedding models the uninterrupted run.
  * `RunState.selections` and `RunState.processed` are observers recording
    every account returned by the selector and the number of loop iterations
    that reached the logging statement; they influence nothing.
-/

namespace GmailSender

abbrev Str := List Char

/-- Python `str.strip()` over ASCII whitespace. -/
def pyStrip (s : Str) : Str :=
  ((s.dropWhile Char.isWhitespace).reverse.dropWhile Char.isWhitespace).reverse

/-- Python `str.lower()` over ASCII letters. -/
def pyLower (s : Str) : Str := s.map Char.toLower

/-- Does `pat` occur at the head of the second list? -/
def leadMatch : Str → Str → Bool
  | [], _ => true
  | _ :: _, [] => false
  | p :: ps, c :: cs => p == c && leadMatch ps cs

/-- Python `pat in s`: contiguous substring occurrence. -/
def occursIn (pat : Str) : Str → Bool
  | [] => leadMatch pat []
  | c :: rest => leadMatch pat (c :: rest) || occursIn pat rest

/-- Character class of the local part of the e-mail regex in src/app.py
line 84: alphanumerics, dot, underscore, percent, plus, hyphen and the
apostrophe (code point 39). -/
def localChar (c : Char) : Bool :=
  c.isAlphanum || c == '.' || c == '_' || c == '%' || c == '+' || c == '-' ||
    c.toNat == 39

/-- Character class `[a-zA-Z0-9.\-]` of the domain part of the regex. -/
def domainChar (c : Char) : Bool :=
  c.isAlphanum || c == '.' || c == '-'

/-- Regex piece `[a-zA-Z]{2,}$`: at least two letters, ending the string. -/
def tldOk (l : Str) : Bool := decide (2 ≤ l.length) && l.all Char.isAlpha

/-- After at least one domain character has been consumed, the remainder must
provide the final dot followed by the top-level-domain letters, possibly
after further domain characters. -/
def domRest : Str → Bool
  | [] => false
  | c :: rest => (c == '.' && tldOk rest) || (domainChar c && domRest rest)

/-- Regex piece `[a-zA-Z0-9.\-]+\.[a-zA-Z]{2,}$`: what must follow the `@`. -/
def domainOk : Str → Bool
  | [] => false
  | c :: rest => domainChar c && domRest rest

/-- After at least one local character has been consumed: either the `@`
followed by a valid domain, or further local characters. -/
def localRest : Str → Bool
  | [] => false
  | c :: rest => (c == '@' && domainOk rest) || (localChar c && localRest rest)

/-- Embedding of `is_valid_email` (src/app.py lines 82-84): full match of
the pattern of src/app.py line 84 (local part, at-sign, domain, dot,
top-level domain).  The empty string is
falsy in Python and is rejected up front.  (Python `$` would also accept one
trailing newline, but every caller relevant to the claims strips the string
first, so that case cannot arise here.) -/
def is_valid_email : Str → Bool
  | [] => false
  | c :: rest => localChar c && localRest rest

/-- Embedding of `(r or "").strip().lower()` (src/app.py line 89); `None` is modelled by
the empty list, which `pyStrip` and `pyLower` both fix. -/
def cleanEmail (r : Str) : Str := pyLower (pyStrip r)

/-- Loop body of `sanitize_recipients` (src/app.py lines 86-93), with the
`seen` set threaded explicitly. -/
def sanitizeAux : List Str → List Str → List Str
  | [], _ => []
  | r :: rest, seen =>
    let r2 := cleanEmail r
    if r2 ≠ [] ∧ is_valid_email r2 ∧ r2 ∉ seen then
      r2 :: sanitizeAux rest (r2 :: seen)
    else
      sanitizeAux rest seen

/-- Embedding of `sanitize_recipients` (src/app.py lines 86-93). -/
def sanitize_recipients (raw : List Str) : List Str := sanitizeAux raw []

/-- Specification-side definition, from the words of the spec only
("preserving first-seen order"): keep the first occurrence of each element,
drop later duplicates.  Used to compare `sanitize_recipients` against the
spec contract. -/
def specDedupFirstAux : List Str → List Str → List Str
  | [], _ => []
  | x :: xs, seen =>
    if x ∈ seen then specDedupFirstAux xs seen
    else x :: specDedupFirstAux xs (x :: seen)

/-- First-occurrence deduplication, from the spec words. -/
def specDedupFirst (l : List Str) : List Str := specDedupFirstAux l []

/-- One record of `sent_counters.json`: `{"date": ..., "sent_today": ...}`. -/
structure CounterEntry where
  date : Str
  sent_today : Nat
deriving DecidableEq

/-- The parsed JSON object: account identifier to counter record. -/
abbrev CtrMap := List (Str × CounterEntry)

/-- Dictionary lookup. -/
def lookupCounter : CtrMap → Str → Option CounterEntry
  | [], _ => none
  | (k, v) :: rest, id => if k = id then some v else lookupCounter rest id

/-- Dictionary update (replace in place, append when absent). -/
def setCounter : CtrMap → Str → CounterEntry → CtrMap
  | [], id, v => [(id, v)]
  | (k, v0) :: rest, id, v =>
    if k = id then (id, v) :: rest else (k, v0) :: setCounter rest id v

/-- Embedding of `get_sent_today` (src/app.py lines 122-126) applied to an already-read
counters map: 0 when the account is absent or the stored date is not today,
otherwise the stored count. -/
def get_sent_today (counters : CtrMap) (today account_id : Str) : Nat :=
  match lookupCounter counters account_id with
  | none => 0
  | some e => if e.date = today then e.sent_today else 0

/-- Embedding of `update_sent_counter` (src/app.py lines 114-120) applied to an
already-read counters map: reset to a fresh zero record when absent or
stale, then add `delta`. -/
def update_sent_counter (counters : CtrMap) (today account_id : Str)
    (delta : Nat) : CtrMap :=
  let cur :=
    match lookupCounter counters account_id with
    | none => { date := today, sent_today := 0 : CounterEntry }
    | some e => if e.date = today then e else { date := today, sent_today := 0 }
  setCounter counters account_id { cur with sent_today := cur.sent_today + delta }

/-- Embedding of `ensure_sent_counters` (src/app.py lines 95-108) applied to the map read
from disk: add a fresh zero record for every account that has none. -/
def ensure_sent_counters (counters : CtrMap) (today : Str)
    (ids : List Str) : CtrMap :=
  ids.foldl
    (fun cs id =>
      match lookupCounter cs id with
      | some _ => cs
      | none => setCounter cs id { date := today, sent_today := 0 })
    counters

/-- The three states of the backing file `sent_counters.json`: absent,
present but unparseable, present and parseable. -/
inductive CounterBacking where
  | missing : CounterBacking
  | corrupt : Str → CounterBacking
  | good : CtrMap → CounterBacking
deriving DecidableEq

/-- Embedding of `read_sent_counters` (src/app.py lines 110-112): an absent file yields
the empty dictionary; an unparseable file makes `json.load` raise (there is
no handler in the function, modelled as `Except.error`). -/
def read_sent_counters : CounterBacking → Except Str CtrMap
  | .missing => .ok []
  | .corrupt _ => .error "JSONDecodeError".data
  | .good m => .ok m

/-- Embedding of `get_sent_today` including the file read (src/app.py lines 122-126). -/
def get_sent_today_file (b : CounterBacking) (today account_id : Str) :
    Except Str Nat :=
  (read_sent_counters b).map (fun m => get_sent_today m today account_id)

/-- Embedding of `update_sent_counter` including the file read (src/app.py lines
114-120); the result is the map written back to disk. -/
def update_sent_counter_file (b : CounterBacking) (today account_id : Str)
    (delta : Nat) : Except Str CtrMap :=
  (read_sent_counters b).map (fun m => update_sent_counter m today account_id delta)

/-- One configured sending account.  A missing JSON key and an empty string
are both falsy to the Python `or` chains that consume these fields, so both
are modelled as `[]`. -/
structure Account where
  email : Str
  username : Str
  name : Str
  provider : Str
deriving DecidableEq

/-- Python `x or y` on strings (`None` and the empty string are falsy). -/
def pyOrS (x y : Str) : Str := if x = [] then y else x

/-- Embedding of `get_account_id` (src/app.py lines 147-148):
`account.get("email") or account.get("username") or account.get("name")`. -/
def get_account_id (a : Account) : Str := pyOrS a.email (pyOrS a.username a.name)

/-- The mutable state of `SMTPAccountManager` (src/app.py lines 153-159).
The two Python sets are lists with set semantics (`List.insert` adds only
absent elements). -/
structure Mgr where
  accounts : List Account
  daily_limit : Nat
  rate_limited_accounts : List Str
  failed_accounts : List Str
  current_index : Nat
deriving DecidableEq

/-- Embedding of `SMTPAccountManager.__init__` (src/app.py lines 154-159). -/
def Mgr.init (accounts : List Account) (daily_limit : Nat) : Mgr :=
  ⟨accounts, daily_limit, [], [], 0⟩

/-- Embedding of `mark_rate_limited` (src/app.py lines 161-163). -/
def mark_rate_limited (m : Mgr) (account_id : Str) : Mgr :=
  { m with rate_limited_accounts := m.rate_limited_accounts.insert account_id }

/-- Embedding of `mark_failed` (src/app.py lines 165-167). -/
def mark_failed (m : Mgr) (account_id : Str) : Mgr :=
  { m with failed_accounts := m.failed_accounts.insert account_id }

/-- The error string returned on exhaustion (src/app.py line 188). -/
def exhaustedMsg : Str := "All accounts exhausted, rate limited, or failed".data

/-- Body of the `while attempts < len(self.accounts)` loop of
`get_next_available_account` (src/app.py lines 169-188); `fuel` is the
remaining number of iterations, starting at `len(accounts)`.  The source
keeps `current_index < len(accounts)` whenever the list is non-empty (it is
reassigned modulo the length), so the `none` case of the list access is
unreachable from reachable states; it returns the exhaustion signal. -/
def get_next_aux (cmap : CtrMap) (today : Str) :
    Mgr → Nat → Option Account × Option Str × Mgr
  | m, 0 => (none, some exhaustedMsg, m)
  | m, fuel + 1 =>
    match m.accounts.get? m.current_index with
    | none => (none, some exhaustedMsg, m)
    | some acc =>
      let acc_id := get_account_id acc
      let m2 := { m with current_index := (m.current_index + 1) % m.accounts.length }
      if acc_id ∈ m.rate_limited_accounts ∨ acc_id ∈ m.failed_accounts then
        get_next_aux cmap today m2 fuel
      else if m.daily_limit ≤ get_sent_today cmap today acc_id then
        get_next_aux cmap today m2 fuel
      else
        (some acc, none, m2)

/-- Embedding of `get_next_available_account` (src/app.py lines 169-188): the returned
triple is (account or None, error message or None, manager state after the
call). -/
def get_next_available_account (m : Mgr) (cmap : CtrMap) (today : Str) :
    Option Account × Option Str × Mgr :=
  get_next_aux cmap today m m.accounts.length

/-- The keyword list of `is_rate_limit_error` (src/app.py lines 216-220). -/
def rate_indicators : List Str :=
  ["rate limit".data, "too many".data, "quota".data, "429".data, "421".data,
   "450".data, "451".data, "temporarily blocked".data, "slow down".data,
   "limit exceeded".data, "daily limit".data, "hourly limit".data,
   "throttle".data, "try again later".data]

/-- Embedding of `is_rate_limit_error` (src/app.py lines 215-222). -/
def is_rate_limit_error (error_msg : Str) : Bool :=
  rate_indicators.any (fun ind => occursIn ind (pyLower error_msg))

/-- The keyword list of `is_auth_error` (src/app.py lines 225-229). -/
def auth_indicators : List Str :=
  ["authentication failed".data, "invalid credentials".data, "auth".data,
   "username and password not accepted".data, "login failed".data,
   "bad credentials".data, "535".data, "incorrect authentication".data]

/-- Embedding of `is_auth_error` (src/app.py lines 224-231). -/
def is_auth_error (error_msg : Str) : Bool :=
  auth_indicators.any (fun ind => occursIn ind (pyLower error_msg))

/-- Outcome of one `send_via_smtp` call (src/app.py lines 486-502):
`(True, None)` or `(False, str(e))`. -/
inductive SendR where
  | delivered : SendR
  | failedWith : Str → SendR
deriving DecidableEq

/-- The fields of one appended `sent_log.csv` row that the claims are about
(src/app.py lines 590-599); timestamp, name, provider and uuid are
environment metadata and are omitted. -/
structure LogRow where
  recipient : Str
  account : Str
  status : Str
  error : Str
deriving DecidableEq

/-- Result of one completed loop iteration for one recipient. -/
structure StepRes where
  mgr : Mgr
  counters : CtrMap
  row : LogRow
  ok : Bool
  selections : List Str
deriving DecidableEq

/-- How one loop iteration can end: the top-of-iteration selector found no
account (`break` at src/app.py lines 560-562); the retry re-selection found
no account, in which case building the row evaluates
`None.get("provider", "")` and the resulting AttributeError aborts the whole
run through the handler at line 641 (no row is appended); or the iteration
completed and appended one row. -/
inductive StepOut where
  | exhausted : StepOut
  | crashed : Mgr → List Str → StepOut
  | done : StepRes → StepOut
deriving DecidableEq

/-- The manager state after a step, given the state `m` the step started
from (unchanged when the step broke on exhaustion). -/
def StepOut.mgrOut : StepOut → Mgr → Mgr
  | .exhausted, m => m
  | .crashed m2 _, _ => m2
  | .done r, _ => r.mgr

/-- The accounts the selector returned during a step, in order. -/
def StepOut.sels : StepOut → List Str
  | .exhausted => []
  | .crashed _ s => s
  | .done r => r.selections

/-- The error column of a row: `str(error)[:200] if error else ""`
(src/app.py line 598). -/
def errCol : Option Str → Str
  | none => []
  | some e => e.take 200

/-- One iteration of the send loop for recipient `recip` (src/app.py lines
548-607): select an account, attempt delivery, on a classified failure mark
the account and retry once on a newly selected account, append one row, and
update the counter file on success. -/
def processRecipient (today : Str) (outcome : Str → Str → SendR) (m : Mgr)
    (cmap : CtrMap) (recip : Str) : StepOut :=
  match get_next_available_account m cmap today with
  | (none, _, _) => .exhausted
  | (some acc, _, m1) =>
    let acc_id := get_account_id acc
    match outcome recip acc_id with
    | .delivered =>
      .done { mgr := m1, counters := update_sent_counter cmap today acc_id 1,
              row := ⟨recip, acc_id, "sent".data, errCol none⟩,
              ok := true, selections := [acc_id] }
    | .failedWith err =>
      if is_rate_limit_error err then
        let m2 := mark_rate_limited m1 acc_id
        match get_next_available_account m2 cmap today with
        | (some acc2, _, m3) =>
          let id2 := get_account_id acc2
          match outcome recip id2 with
          | .delivered =>
            .done { mgr := m3, counters := update_sent_counter cmap today id2 1,
                    row := ⟨recip, id2, "sent".data, errCol none⟩,
                    ok := true, selections := [acc_id, id2] }
          | .failedWith err2 =>
            .done { mgr := m3, counters := cmap,
                    row := ⟨recip, id2, "failed".data, errCol (some err2)⟩,
                    ok := false, selections := [acc_id, id2] }
        | (none, _, m3) => .crashed m3 [acc_id]
      else if is_auth_error err then
        let m2 := mark_failed m1 acc_id
        match get_next_available_account m2 cmap today with
        | (some acc2, _, m3) =>
          let id2 := get_account_id acc2
          match outcome recip id2 with
          | .delivered =>
            .done { mgr := m3, counters := update_sent_counter cmap today id2 1,
                    row := ⟨recip, id2, "sent".data, errCol none⟩,
                    ok := true, selections := [acc_id, id2] }
          | .failedWith err2 =>
            .done { mgr := m3, counters := cmap,
                    row := ⟨recip, id2, "failed".data, errCol (some err2)⟩,
                    ok := false, selections := [acc_id, id2] }
        | (none, _, m3) => .crashed m3 [acc_id]
      else
        .done { mgr := m1, counters := cmap,
                row := ⟨recip, acc_id, "failed".data, errCol (some err)⟩,
                ok := false, selections := [acc_id] }

/-- The campaign-loop state (src/app.py lines 536-607): manager, counter
file contents, running totals, accumulated log rows, plus the two observers
described in the header comment. -/
structure RunState where
  mgr : Mgr
  counters : CtrMap
  sent : Nat
  failed : Nat
  log : List LogRow
  processed : Nat
  selections : List Str
deriving DecidableEq

/-- The `for i, recip in enumerate(recipients)` loop (src/app.py lines
548-639) for an uninterrupted run: exhaustion breaks out, the retry
AttributeError aborts the run, and a completed iteration appends its row,
bumps the totals and continues. -/
def runCampaign (today : Str) (outcome : Str → Str → SendR) :
    List Str → RunState → RunState
  | [], st => st
  | recip :: rest, st =>
    match processRecipient today outcome st.mgr st.counters recip with
    | .exhausted => st
    | .crashed m2 sels =>
      { st with mgr := m2, selections := st.selections ++ sels }
    | .done r =>
      runCampaign today outcome rest
        { mgr := r.mgr, counters := r.counters,
          sent := st.sent + (if r.ok then 1 else 0),
          failed := st.failed + (if r.ok then 0 else 1),
          log := st.log ++ [r.row],
          processed := st.processed + 1,
          selections := st.selections ++ r.selections }

/-- Fresh campaign state over the given accounts, daily limit and counter
file contents (src/app.py lines 536-540). -/
def initRun (accounts : List Account) (daily_limit : Nat) (counters : CtrMap) :
    RunState :=
  { mgr := Mgr.init accounts daily_limit, counters := counters,
    sent := 0, failed := 0, log := [], processed := 0, selections := [] }

/-
Shared fixtures for the concrete scenarios of the claims.
-/

/-- Fixture: account A. -/
def accA : Account := ⟨"a@x.com".data, [], "A".data, "gmail".data⟩

/-- Fixture: account B. -/
def accB : Account := ⟨"b@x.com".data, [], "B".data, "gmail".data⟩

/-- Fixture: identifier of account A. -/
def idA : Str := "a@x.com".data

/-- Fixture: identifier of account B. -/
def idB : Str := "b@x.com".data

/-- Fixture: the current calendar date. -/
def today0 : Str := "2026-10-12".data

/-- Fixture: a stale date (yesterday). -/
def yday0 : Str := "2026-10-11".data

/-- Fixture: recipients. -/
def r1 : Str := "r1@y.com".data

/-- Fixture: second recipient. -/
def r2 : Str := "r2@y.com".data

/-- Fixture: third recipient. -/
def r3 : Str := "r3@y.com".data

/-- Fixture: counter file after `ensure_sent_counters` for accounts A and B
with zero prior sends today. -/
def ctr0 : CtrMap := ensure_sent_counters [] today0 [idA, idB]

/-- Fixture: an oracle under which every delivery attempt succeeds. -/
def allDeliver : Str → Str → SendR := fun _ _ => .delivered

/-
Helper lemmas about the counter store.
-/

theorem lookupCounter_setCounter_self (m : CtrMap) (k : Str) (v : CounterEntry) :
    lookupCounter (setCounter m k v) k = some v := by
  induction m with
  | nil => simp [setCounter, lookupCounter]
  | cons p rest ih =>
    obtain ⟨k2, v2⟩ := p
    by_cases h : k2 = k
    · simp [setCounter, h, lookupCounter]
    · simp [setCounter, h, lookupCounter, ih]

/-
Helper lemmas about characters and lowercasing.
-/

theorem char_toLower_fixed (m : Nat) (h1 : 97 ≤ m) (h2 : m ≤ 122) :
    Char.toLower (Char.ofNat m) = Char.ofNat m := by
  interval_cases m <;> decide

theorem char_toLower_idem (c : Char) :
    Char.toLower (Char.toLower c) = Char.toLower c := by
  by_cases h : 65 ≤ c.toNat ∧ c.toNat ≤ 90
  · have h1 : Char.toLower c = Char.ofNat (c.toNat + 32) := by
      unfold Char.toLower
      rw [if_pos]
      exact ⟨h.1, h.2⟩
    rw [h1]
    exact char_toLower_fixed _ (by omega) (by omega)
  · have h1 : Char.toLower c = c := by
      unfold Char.toLower
      rw [if_neg]
      intro hc
      exact h ⟨hc.1, hc.2⟩
    rw [h1, h1]

theorem pyLower_idem (s : Str) : pyLower (pyLower s) = pyLower s := by
  have h : Char.toLower ∘ Char.toLower = Char.toLower := funext char_toLower_idem
  simp [pyLower, List.map_map, h]

theorem pyLower_cleanEmail (r : Str) : pyLower (cleanEmail r) = cleanEmail r :=
  pyLower_idem (pyStrip r)

/-
Helper lemmas about the sanitizer.
-/

/-- The validity test applied per cleaned entry (the membership test is kept
separate, inside the deduplication). -/
def sanPred (r : Str) : Bool := decide (r ≠ []) && is_valid_email r

theorem sanitizeAux_eq_dedup (l : List Str) :
    ∀ seen, sanitizeAux l seen =
      specDedupFirstAux ((l.map cleanEmail).filter sanPred) seen := by
  induction l with
  | nil => intro seen; simp [sanitizeAux, specDedupFirstAux]
  | cons r rest ih =>
    intro seen
    by_cases hv : cleanEmail r ≠ [] ∧ is_valid_email (cleanEmail r)
    · have hp : sanPred (cleanEmail r) = true := by
        simp [sanPred, hv.1, hv.2]
      by_cases hs : cleanEmail r ∈ seen
      · simp [sanitizeAux, hv.1, hv.2, hs, hp, specDedupFirstAux, ih]
      · simp [sanitizeAux, hv.1, hv.2, hs, hp, specDedupFirstAux, ih]
    · have hp : sanPred (cleanEmail r) = false := by
        rcases not_and_or.mp hv with h | h
        · simp only [ne_eq, not_not] at h
          simp [sanPred, h]
        · simp [sanPred, Bool.eq_false_iff.mpr h]
      have hcond : ¬(cleanEmail r ≠ [] ∧ is_valid_email (cleanEmail r) ∧
          cleanEmail r ∉ seen) := by
        intro hc
        exact hv ⟨hc.1, hc.2.1⟩
      simp [sanitizeAux, hcond, hp, ih]

theorem mem_specDedupFirstAux {x : Str} (l : List Str) :
    ∀ seen, x ∈ specDedupFirstAux l seen → x ∈ l ∧ x ∉ seen := by
  induction l with
  | nil => intro seen h; simp [specDedupFirstAux] at h
  | cons y ys ih =>
    intro seen h
    by_cases hy : y ∈ seen
    · simp only [specDedupFirstAux, if_pos hy] at h
      obtain ⟨h1, h2⟩ := ih seen h
      exact ⟨List.mem_cons_of_mem y h1, h2⟩
    · simp only [specDedupFirstAux, if_neg hy] at h
      rcases List.mem_cons.mp h with h | h
      · subst h
        exact ⟨List.mem_cons_self x ys, hy⟩
      · obtain ⟨h1, h2⟩ := ih (y :: seen) h
        exact ⟨List.mem_cons_of_mem y h1, fun hc => h2 (List.mem_cons_of_mem y hc)⟩

theorem nodup_specDedupFirstAux (l : List Str) :
    ∀ seen, (specDedupFirstAux l seen).Nodup := by
  induction l with
  | nil => intro seen; simp [specDedupFirstAux]
  | cons y ys ih =>
    intro seen
    by_cases hy : y ∈ seen
    · simpa [specDedupFirstAux, hy] using ih seen
    · simp only [specDedupFirstAux, if_neg hy]
      refine List.nodup_cons.mpr ⟨fun hc => ?_, ih (y :: seen)⟩
      exact (mem_specDedupFirstAux ys (y :: seen) hc).2 (List.mem_cons_self y seen)

/-- C6: for every input list, the sanitizer output is exactly the
first-occurrence deduplication of the cleaned (stripped, lowercased) valid
entries in input order; it has no duplicates, and every entry is a
lowercase fixed point matching the validity pattern.  (Invalid and
duplicate inputs are dropped by a total function: no error is signalled.) -/
theorem c6_sanitizer_contract (raw : List Str) :
    sanitize_recipients raw =
      specDedupFirst ((raw.map cleanEmail).filter sanPred) ∧
    (sanitize_recipients raw).Nodup ∧
    ∀ e ∈ sanitize_recipients raw, is_valid_email e = true ∧ pyLower e = e := by
  have heq : sanitize_recipients raw =
      specDedupFirst ((raw.map cleanEmail).filter sanPred) :=
    sanitizeAux_eq_dedup raw []
  refine ⟨heq, ?_, ?_⟩
  · rw [heq]
    exact nodup_specDedupFirstAux _ []
  · intro e he
    rw [heq] at he
    have h1 : e ∈ (raw.map cleanEmail).filter sanPred :=
      (mem_specDedupFirstAux _ [] he).1
    have h2 : e ∈ raw.map cleanEmail := List.mem_of_mem_filter h1
    have h3 : sanPred e = true := List.of_mem_filter h1
    obtain ⟨r, _, hr⟩ := List.mem_map.mp h2
    constructor
    · exact (Bool.and_eq_true_iff.mp h3).2
    · rw [← hr]
      exact pyLower_cleanEmail r

/-- C6 witness: a concrete input with whitespace, mixed case, an invalid
entry and a case-insensitive duplicate. -/
theorem c6_sanitizer_contract_witness :
    (sanitize_recipients
        ["  Foo@Bar.Com ".data, "foo@bar.com".data, "bad".data, "ok@site.org".data]).Nodup ∧
    is_valid_email "foo@bar.com".data = true ∧
    pyLower "foo@bar.com".data = "foo@bar.com".data := by
  have h := c6_sanitizer_contract
    ["  Foo@Bar.Com ".data, "foo@bar.com".data, "bad".data, "ok@site.org".data]
  refine ⟨h.2.1, ?_, ?_⟩
  · exact (h.2.2 "foo@bar.com".data (by decide)).1
  · exact (h.2.2 "foo@bar.com".data (by decide)).2

/-- C7: reading a counter immediately after incrementing it by one on the
same calendar date yields the pre-increment reading plus one, and reading a
record whose stored date is not the current date yields zero regardless of
the stored count. -/
theorem c7_counter_roundtrip (m : CtrMap) (today account_id : Str) :
    get_sent_today (update_sent_counter m today account_id 1) today account_id =
      get_sent_today m today account_id + 1 ∧
    ∀ e, lookupCounter m account_id = some e → e.date ≠ today →
      get_sent_today m today account_id = 0 := by
  constructor
  · cases h : lookupCounter m account_id with
    | none =>
      simp [update_sent_counter, get_sent_today, h, lookupCounter_setCounter_self]
    | some e =>
      by_cases hd : e.date = today
      · simp [update_sent_counter, get_sent_today, h, hd,
          lookupCounter_setCounter_self]
      · simp [update_sent_counter, get_sent_today, h, hd,
          lookupCounter_setCounter_self]
  · intro e he hne
    simp [get_sent_today, he, hne]

/-- C7 witness: a store holding a stale (yesterday) record with count 7
reads as zero, and incrementing it today reads back as one. -/
theorem c7_counter_roundtrip_witness :
    get_sent_today [(idA, ⟨yday0, 7⟩)] today0 idA = 0 ∧
    get_sent_today (update_sent_counter [(idA, ⟨yday0, 7⟩)] today0 idA 1)
      today0 idA = get_sent_today [(idA, ⟨yday0, 7⟩)] today0 idA + 1 := by
  have h := c7_counter_roundtrip [(idA, ⟨yday0, 7⟩)] today0 idA
  exact ⟨h.2 ⟨yday0, 7⟩ rfl (by decide), h.1⟩

/-- C4: the counter store does not fail loudly on a missing backing file:
`read_sent_counters` silently yields the empty map, so `get_sent_today`
answers zero and `update_sent_counter` silently creates a fresh record —
only an unparseable file raises.  This contradicts the stated requirement
that both operations signal an error; the spec itself flags the zeroing
behaviour as the latent defect. -/
theorem c4_missing_store_reads_zero (today account_id : Str) :
    get_sent_today_file .missing today account_id = .ok 0 ∧
    update_sent_counter_file .missing today account_id 1 =
      .ok [(account_id, ⟨today, 1⟩)] ∧
    ∀ raw, read_sent_counters (.corrupt raw) = .error "JSONDecodeError".data := by
  refine ⟨rfl, ?_, fun raw => rfl⟩
  simp [update_sent_counter_file, read_sent_counters, update_sent_counter,
    lookupCounter, setCounter, Except.map]

/-
Helper lemmas about the account selector.
-/

theorem get_next_aux_state (cmap : CtrMap) (today : Str) :
    ∀ fuel m, ∃ i,
      (get_next_aux cmap today m fuel).2.2 = { m with current_index := i } := by
  intro fuel
  induction fuel with
  | zero => intro m; exact ⟨m.current_index, rfl⟩
  | succ n ih =>
    intro m
    rw [get_next_aux]
    cases hg : m.accounts.get? m.current_index with
    | none => exact ⟨m.current_index, rfl⟩
    | some acc =>
      simp only
      split_ifs with h1 h2
      · exact ih _
      · exact ih _
      · exact ⟨(m.current_index + 1) % m.accounts.length, rfl⟩

theorem get_next_aux_skips (cmap : CtrMap) (today : Str) (a : Str) :
    ∀ fuel m acc o m2,
      (a ∈ m.rate_limited_accounts ∨ a ∈ m.failed_accounts) →
      get_next_aux cmap today m fuel = (some acc, o, m2) →
      get_account_id acc ≠ a := by
  intro fuel
  induction fuel with
  | zero =>
    intro m acc o m2 _ h
    simp [get_next_aux] at h
  | succ n ih =>
    intro m acc o m2 ha h
    rw [get_next_aux] at h
    cases hg : m.accounts.get? m.current_index with
    | none => rw [hg] at h; simp at h
    | some acc0 =>
      rw [hg] at h
      simp only at h
      split_ifs at h with h1 h2
      · exact ih { m with current_index := (m.current_index + 1) % m.accounts.length }
          acc o m2 ha h
      · exact ih { m with current_index := (m.current_index + 1) % m.accounts.length }
          acc o m2 ha h
      · obtain ⟨heq, -, -⟩ := Prod.mk.injEq .. ▸ h
        have hacc : acc0 = acc := Option.some.inj heq
        subst hacc
        intro hc
        rw [hc] at h1
        exact h1 ha

theorem get_next_aux_all_ineligible (cmap : CtrMap) (today : Str) :
    ∀ fuel m,
      (∀ acc ∈ m.accounts,
        get_account_id acc ∈ m.rate_limited_accounts ∨
        get_account_id acc ∈ m.failed_accounts ∨
        m.daily_limit ≤ get_sent_today cmap today (get_account_id acc)) →
      (get_next_aux cmap today m fuel).1 = none ∧
      (get_next_aux cmap today m fuel).2.1 = some exhaustedMsg := by
  intro fuel
  induction fuel with
  | zero => intro m _; exact ⟨rfl, rfl⟩
  | succ n ih =>
    intro m hall
    rw [get_next_aux]
    cases hg : m.accounts.get? m.current_index with
    | none => exact ⟨rfl, rfl⟩
    | some acc =>
      simp only
      have hmem : acc ∈ m.accounts := List.get?_mem hg
      split_ifs with h1 h2
      · exact ih _ hall
      · exact ih _ hall
      · rcases hall acc hmem with h | h | h
        · exact absurd (Or.inl h) h1
        · exact absurd (Or.inr h) h1
        · exact absurd h h2

theorem get_next_state {m : Mgr} {cmap : CtrMap} {today : Str}
    {o : Option Account} {e : Option Str} {m2 : Mgr}
    (h : get_next_available_account m cmap today = (o, e, m2)) :
    ∃ i, m2 = { m with current_index := i } := by
  obtain ⟨i, hi⟩ := get_next_aux_state cmap today m.accounts.length m
  rw [get_next_available_account] at h
  rw [h] at hi
  exact ⟨i, hi⟩

theorem get_next_skips {a : Str} {m : Mgr} {cmap : CtrMap} {today : Str}
    {acc : Account} {e : Option Str} {m2 : Mgr}
    (ha : a ∈ m.rate_limited_accounts ∨ a ∈ m.failed_accounts)
    (h : get_next_available_account m cmap today = (some acc, e, m2)) :
    get_account_id acc ≠ a :=
  get_next_aux_skips cmap today a m.accounts.length m acc e m2 ha h

theorem processRecipient_sticky (today : Str) (outcome : Str → Str → SendR)
    (m : Mgr) (cmap : CtrMap) (recip : Str) (a : Str)
    (ha : a ∈ m.rate_limited_accounts) :
    a ∈ ((processRecipient today outcome m cmap recip).mgrOut m).rate_limited_accounts ∧
    ∀ s ∈ (processRecipient today outcome m cmap recip).sels, s ≠ a := by
  rcases hsel : get_next_available_account m cmap today with ⟨o1, e1, m1⟩
  cases o1 with
  | none => simp [processRecipient, hsel, StepOut.mgrOut, StepOut.sels, ha]
  | some acc =>
    obtain ⟨i1, hm1⟩ := get_next_state hsel
    have hid : get_account_id acc ≠ a := get_next_skips (Or.inl ha) hsel
    have ham1 : a ∈ m1.rate_limited_accounts := by rw [hm1]; exact ha
    cases ho : outcome recip (get_account_id acc) with
    | delivered =>
      simp [processRecipient, hsel, ho, StepOut.mgrOut, StepOut.sels, ham1, hid]
    | failedWith err =>
      by_cases hrl : is_rate_limit_error err
      · have ham2 : a ∈ (mark_rate_limited m1 (get_account_id acc)).rate_limited_accounts :=
          List.mem_insert_iff.mpr (Or.inr ham1)
        rcases hsel2 : get_next_available_account
            (mark_rate_limited m1 (get_account_id acc)) cmap today with ⟨o2, e2, m3⟩
        obtain ⟨i2, hm3⟩ := get_next_state hsel2
        have ham3 : a ∈ m3.rate_limited_accounts := by rw [hm3]; exact ham2
        cases o2 with
        | none =>
          simp [processRecipient, hsel, ho, hrl, hsel2, StepOut.mgrOut,
            StepOut.sels, ham3, hid]
        | some acc2 =>
          have hid2 : get_account_id acc2 ≠ a := get_next_skips (Or.inl ham2) hsel2
          cases ho2 : outcome recip (get_account_id acc2) with
          | delivered =>
            simp [processRecipient, hsel, ho, hrl, hsel2, ho2, StepOut.mgrOut,
              StepOut.sels, ham3, hid, hid2]
          | failedWith err2 =>
            simp [processRecipient, hsel, ho, hrl, hsel2, ho2, StepOut.mgrOut,
              StepOut.sels, ham3, hid, hid2]
      · by_cases hau : is_auth_error err
        · have ham2 : a ∈ (mark_failed m1 (get_account_id acc)).rate_limited_accounts := ham1
          rcases hsel2 : get_next_available_account
              (mark_failed m1 (get_account_id acc)) cmap today with ⟨o2, e2, m3⟩
          obtain ⟨i2, hm3⟩ := get_next_state hsel2
          have ham3 : a ∈ m3.rate_limited_accounts := by rw [hm3]; exact ham2
          cases o2 with
          | none =>
            simp [processRecipient, hsel, ho, hrl, hau, hsel2, StepOut.mgrOut,
              StepOut.sels, ham3, hid]
          | some acc2 =>
            have hid2 : get_account_id acc2 ≠ a := get_next_skips (Or.inl ham2) hsel2
            cases ho2 : outcome recip (get_account_id acc2) with
            | delivered =>
              simp [processRecipient, hsel, ho, hrl, hau, hsel2, ho2,
                StepOut.mgrOut, StepOut.sels, ham3, hid, hid2]
            | failedWith err2 =>
              simp [processRecipient, hsel, ho, hrl, hau, hsel2, ho2,
                StepOut.mgrOut, StepOut.sels, ham3, hid, hid2]
        · simp [processRecipient, hsel, ho, hrl, hau, StepOut.mgrOut,
            StepOut.sels, ham1, hid]

/-- C3: once an account identifier is in the rate-limited set (which is
exactly what marking an account rate-limited does, and the set is scoped to
one run), the rest of the run keeps it there and the selector never returns
it again — with no assumption on its daily count.  Selections are read off
the `selections` observer: any selection made during the run is either one
already recorded before, or an account other than `a`. -/
theorem c3_rate_limited_never_reselected (today : Str)
    (outcome : Str → Str → SendR) :
    ∀ (recips : List Str) (st : RunState) (a : Str),
      a ∈ st.mgr.rate_limited_accounts →
      a ∈ (runCampaign today outcome recips st).mgr.rate_limited_accounts ∧
      ∀ s ∈ (runCampaign today outcome recips st).selections,
        s ∈ st.selections ∨ s ≠ a := by
  intro recips
  induction recips with
  | nil => intro st a ha; exact ⟨ha, fun s hs => Or.inl hs⟩
  | cons recip rest ih =>
    intro st a ha
    have hstick := processRecipient_sticky today outcome st.mgr st.counters recip a ha
    rcases hstep : processRecipient today outcome st.mgr st.counters recip with
      _ | ⟨m2, sels⟩ | r
    · simp only [runCampaign, hstep]
      exact ⟨ha, fun s hs => Or.inl hs⟩
    · rw [hstep] at hstick
      simp only [StepOut.mgrOut, StepOut.sels] at hstick
      simp only [runCampaign, hstep]
      refine ⟨hstick.1, ?_⟩
      intro s hs
      rcases List.mem_append.mp hs with h | h
      · exact Or.inl h
      · exact Or.inr (hstick.2 s h)
    · rw [hstep] at hstick
      simp only [StepOut.mgrOut, StepOut.sels] at hstick
      simp only [runCampaign, hstep]
      have hih := ih
        { mgr := r.mgr, counters := r.counters,
          sent := st.sent + (if r.ok then 1 else 0),
          failed := st.failed + (if r.ok then 0 else 1),
          log := st.log ++ [r.row], processed := st.processed + 1,
          selections := st.selections ++ r.selections } a hstick.1
      refine ⟨hih.1, ?_⟩
      intro s hs
      rcases hih.2 s hs with h | h
      · rcases List.mem_append.mp h with h1 | h1
        · exact Or.inl h1
        · exact Or.inr (hstick.2 s h1)
      · exact Or.inr h

/-- C3 witness: a run over two accounts where A starts rate-limited; A stays
excluded at the end of the run. -/
theorem c3_rate_limited_never_reselected_witness :
    idA ∈ (runCampaign today0 allDeliver [r1, r2]
      { initRun [accA, accB] 5 ctr0 with
        mgr := { Mgr.init [accA, accB] 5 with rate_limited_accounts := [idA] } }
      ).mgr.rate_limited_accounts :=
  (c3_rate_limited_never_reselected today0 allDeliver [r1, r2]
    { initRun [accA, accB] 5 ctr0 with
      mgr := { Mgr.init [accA, accB] 5 with rate_limited_accounts := [idA] } }
    idA (by decide)).1

/-- Fixture: the C1 end-to-end run — accounts A then B, per-account daily
limit 2, zero prior sends today, three recipients, every attempt succeeds. -/
def runC1 : RunState :=
  runCampaign today0 allDeliver [r1, r2, r3] (initRun [accA, accB] 2 ctr0)

/-- C1: in the two-account scenario with daily limit 2, zero prior sends and
three recipients where every attempt succeeds, the rows record r1 sent via
A, r2 via B and r3 via A (round robin from the rotation cursor), and the
final counter file reads 2 for A and 1 for B. -/
theorem c1_round_robin_assignment :
    runC1.log.map (fun row => (row.recipient, row.account, row.status)) =
      [(r1, idA, "sent".data), (r2, idB, "sent".data), (r3, idA, "sent".data)] ∧
    get_sent_today runC1.counters today0 idA = 2 ∧
    get_sent_today runC1.counters today0 idB = 1 := by decide

/-- Fixture: the C2 run — one account with daily limit 1, two recipients,
every attempted delivery succeeds. -/
def runC2 : RunState :=
  runCampaign today0 allDeliver [r1, r2]
    (initRun [accA] 1 (ensure_sent_counters [] today0 [idA]))

/-- C2: with one account of daily limit 1 and two recipients whose first
send succeeds, the loop hits exhaustion at the second recipient and breaks:
r2 is never attempted — one row exists (for r1 only), the failed total stays
0, and the skipped count (recipients minus iterations that reached the
logging step) is 1, a category disjoint from attempted-and-failed. -/
theorem c2_exhaustion_recorded_as_skipped :
    runC2.sent = 1 ∧ runC2.failed = 0 ∧
    runC2.log.map (fun row => row.recipient) = [r1] ∧
    runC2.processed = 1 ∧
    ([r1, r2] : List Str).length - runC2.processed = 1 := by decide

/-- Fixture: oracle for the C5 scenario — the first attempt (recipient r1
via account A) fails with a rate-limit error, every other attempt
succeeds. -/
def outcomeC5 : Str → Str → SendR := fun r a =>
  if r = r1 ∧ a = idA then .failedWith "429 too many requests".data
  else .delivered

/-- Fixture: the C5 run — two eligible accounts, one recipient, first
attempt rate-limited, retry on the other account succeeds. -/
def runC5 : RunState := runCampaign today0 outcomeC5 [r1] (initRun [accA, accB] 5 ctr0)

/-- C5 counterexample: the first attempt really happened (two selections,
A then B, and A got marked rate-limited), yet exactly one row is in the log
— the claimed two records per failed-then-retried recipient are refuted:
the single row reflects only the final outcome (sent via B). -/
theorem c5_counterexample_single_record :
    runC5.selections = [idA, idB] ∧
    runC5.mgr.rate_limited_accounts = [idA] ∧
    runC5.log = [⟨r1, idB, "sent".data, []⟩] ∧
    runC5.log.length ≠ 2 := by decide

/-- C5 (amended): the log is append-only and receives exactly one record
per loop iteration that completes — a recipient whose first attempt fails
and is retried yields a single record reflecting only the final outcome,
and never more rows than recipients. -/
theorem c5_amended_one_record_per_iteration (today : Str)
    (outcome : Str → Str → SendR) :
    ∀ (recips : List Str) (st : RunState),
      ∃ rows, (runCampaign today outcome recips st).log = st.log ++ rows ∧
        st.processed + rows.length = (runCampaign today outcome recips st).processed ∧
        rows.length ≤ recips.length := by
  intro recips
  induction recips with
  | nil => intro st; exact ⟨[], by simp [runCampaign], by simp [runCampaign], by simp⟩
  | cons recip rest ih =>
    intro st
    rcases hstep : processRecipient today outcome st.mgr st.counters recip with
      _ | ⟨m2, sels⟩ | r
    · simp only [runCampaign, hstep]
      exact ⟨[], by simp, by simp, by simp⟩
    · simp only [runCampaign, hstep]
      exact ⟨[], by simp, by simp, by simp⟩
    · simp only [runCampaign, hstep]
      obtain ⟨rows, h1, h2, h3⟩ := ih
        { mgr := r.mgr, counters := r.counters,
          sent := st.sent + (if r.ok then 1 else 0),
          failed := st.failed + (if r.ok then 0 else 1),
          log := st.log ++ [r.row], processed := st.processed + 1,
          selections := st.selections ++ r.selections }
      refine ⟨r.row :: rows, ?_, ?_, ?_⟩
      · rw [h1]
        simp
      · have h2n : st.processed + 1 + rows.length =
            (runCampaign today outcome rest
              { mgr := r.mgr, counters := r.counters,
                sent := st.sent + (if r.ok then 1 else 0),
                failed := st.failed + (if r.ok then 0 else 1),
                log := st.log ++ [r.row], processed := st.processed + 1,
                selections := st.selections ++ r.selections }).processed := h2
        simp only [List.length_cons]
        omega
      · simp only [List.length_cons]
        omega

/-- Fixture: a manager over the empty account list. -/
def mgrE : Mgr := Mgr.init [] 5

/-- Fixture: a manager over one account that is already rate-limited, so a
full cycle finds no eligible account. -/
def mgrX : Mgr := { Mgr.init [accA] 5 with rate_limited_accounts := [idA] }

/-- C8 counterexample: the selector returns the identical signal — no
account and the identical message — for an empty account list and for a
non-empty list whose full cycle finds no eligible account; the caller
cannot tell the two apart from the selector result. -/
theorem c8_counterexample_identical_signal :
    (get_next_available_account mgrE [] today0).1 =
      (get_next_available_account mgrX [] today0).1 ∧
    (get_next_available_account mgrE [] today0).2.1 =
      (get_next_available_account mgrX [] today0).2.1 ∧
    (get_next_available_account mgrX [] today0).1 = none := by decide

/-- C8 (amended): exhaustion after a full cycle over a fully ineligible
account list and the empty account list produce one and the same terminal
signal (no account, the fixed exhaustion message); they are not
distinguishable from the selector result (the application instead refuses
to start a campaign with no accounts selected). -/
theorem c8_amended_same_exhaustion_signal (cmap : CtrMap) (today : Str) (m : Mgr) :
    (m.accounts = [] →
      get_next_available_account m cmap today = (none, some exhaustedMsg, m)) ∧
    ((∀ acc ∈ m.accounts,
        get_account_id acc ∈ m.rate_limited_accounts ∨
        get_account_id acc ∈ m.failed_accounts ∨
        m.daily_limit ≤ get_sent_today cmap today (get_account_id acc)) →
      (get_next_available_account m cmap today).1 = none ∧
      (get_next_available_account m cmap today).2.1 = some exhaustedMsg) := by
  constructor
  · intro h
    rw [get_next_available_account, h]
    rfl
  · intro hall
    exact get_next_aux_all_ineligible cmap today m.accounts.length m hall

/-- C8 amended witness: both hypotheses discharged at concrete managers. -/
theorem c8_amended_same_exhaustion_signal_witness :
    get_next_available_account mgrE [] today0 = (none, some exhaustedMsg, mgrE) ∧
    (get_next_available_account mgrX [] today0).1 = none :=
  ⟨(c8_amended_same_exhaustion_signal [] today0 mgrE).1 rfl,
   ((c8_amended_same_exhaustion_signal [] today0 mgrX).2 (by decide)).1⟩

/-- C9: while processing one recipient, the per-run exclusion sets change at
most once, and any change inserts exactly the identifier of the account the
first selection returned, into exactly one of the two sets — so the retry
account is never marked, no matter how the retry error text would
classify. -/
theorem c9_at_most_one_mark_per_recipient (today : Str)
    (outcome : Str → Str → SendR) (m : Mgr) (cmap : CtrMap) (recip : Str) :
    (((processRecipient today outcome m cmap recip).mgrOut m).rate_limited_accounts =
        m.rate_limited_accounts ∧
     ((processRecipient today outcome m cmap recip).mgrOut m).failed_accounts =
        m.failed_accounts) ∨
    (∃ acc, (get_next_available_account m cmap today).1 = some acc ∧
      ((((processRecipient today outcome m cmap recip).mgrOut m).rate_limited_accounts =
          m.rate_limited_accounts.insert (get_account_id acc) ∧
        ((processRecipient today outcome m cmap recip).mgrOut m).failed_accounts =
          m.failed_accounts) ∨
       (((processRecipient today outcome m cmap recip).mgrOut m).failed_accounts =
          m.failed_accounts.insert (get_account_id acc) ∧
        ((processRecipient today outcome m cmap recip).mgrOut m).rate_limited_accounts =
          m.rate_limited_accounts))) := by
  rcases hsel : get_next_available_account m cmap today with ⟨o1, e1, m1⟩
  cases o1 with
  | none => left; simp [processRecipient, hsel, StepOut.mgrOut]
  | some acc =>
    obtain ⟨i1, hm1⟩ := get_next_state hsel
    have hrl1 : m1.rate_limited_accounts = m.rate_limited_accounts := by rw [hm1]
    have hf1 : m1.failed_accounts = m.failed_accounts := by rw [hm1]
    cases ho : outcome recip (get_account_id acc) with
    | delivered =>
      left
      simp [processRecipient, hsel, ho, StepOut.mgrOut, hrl1, hf1]
    | failedWith err =>
      by_cases hrl : is_rate_limit_error err
      · refine Or.inr ⟨acc, rfl, Or.inl ?_⟩
        rcases hsel2 : get_next_available_account
            (mark_rate_limited m1 (get_account_id acc)) cmap today with ⟨o2, e2, m3⟩
        obtain ⟨i2, hm3⟩ := get_next_state hsel2
        have hrl3 : m3.rate_limited_accounts =
            m.rate_limited_accounts.insert (get_account_id acc) := by
          rw [hm3]
          simp [mark_rate_limited, hrl1]
        have hf3 : m3.failed_accounts = m.failed_accounts := by
          rw [hm3]
          simp [mark_rate_limited, hf1]
        cases o2 with
        | none =>
          simp [processRecipient, hsel, ho, hrl, hsel2, StepOut.mgrOut, hrl3, hf3]
        | some acc2 =>
          cases ho2 : outcome recip (get_account_id acc2) with
          | delivered =>
            simp [processRecipient, hsel, ho, hrl, hsel2, ho2, StepOut.mgrOut,
              hrl3, hf3]
          | failedWith err2 =>
            simp [processRecipient, hsel, ho, hrl, hsel2, ho2, StepOut.mgrOut,
              hrl3, hf3]
      · by_cases hau : is_auth_error err
        · refine Or.inr ⟨acc, rfl, Or.inr ?_⟩
          rcases hsel2 : get_next_available_account
              (mark_failed m1 (get_account_id acc)) cmap today with ⟨o2, e2, m3⟩
          obtain ⟨i2, hm3⟩ := get_next_state hsel2
          have hf3 : m3.failed_accounts =
              m.failed_accounts.insert (get_account_id acc) := by
            rw [hm3]
            simp [mark_failed, hf1]
          have hrl3 : m3.rate_limited_accounts = m.rate_limited_accounts := by
            rw [hm3]
            simp [mark_failed, hrl1]
          cases o2 with
          | none =>
            simp [processRecipient, hsel, ho, hrl, hau, hsel2, StepOut.mgrOut,
              hrl3, hf3]
          | some acc2 =>
            cases ho2 : outcome recip (get_account_id acc2) with
            | delivered =>
              simp [processRecipient, hsel, ho, hrl, hau, hsel2, ho2,
                StepOut.mgrOut, hrl3, hf3]
            | failedWith err2 =>
              simp [processRecipient, hsel, ho, hrl, hau, hsel2, ho2,
                StepOut.mgrOut, hrl3, hf3]
        · left
          simp [processRecipient, hsel, ho, hrl, hau, StepOut.mgrOut, hrl1, hf1]

/-- C10: when the first delivery attempt for a recipient fails with an error
text matching a rate-limit keyword, the first-selected account is marked
rate-limited — not failed — with no assumption on whether the auth keyword
set also matches, because the loop tests the rate-limit set first. -/
theorem c10_rate_limit_classified_before_auth (today : Str)
    (outcome : Str → Str → SendR) (m : Mgr) (cmap : CtrMap) (recip : Str)
    (acc : Account) (err : Str)
    (hsel1 : (get_next_available_account m cmap today).1 = some acc)
    (hout : outcome recip (get_account_id acc) = .failedWith err)
    (hrle : is_rate_limit_error err = true) :
    ((processRecipient today outcome m cmap recip).mgrOut m).rate_limited_accounts =
      m.rate_limited_accounts.insert (get_account_id acc) ∧
    ((processRecipient today outcome m cmap recip).mgrOut m).failed_accounts =
      m.failed_accounts := by
  rcases hsel : get_next_available_account m cmap today with ⟨o1, e1, m1⟩
  rw [hsel] at hsel1
  simp only at hsel1
  subst hsel1
  obtain ⟨i1, hm1⟩ := get_next_state hsel
  have hrl1 : m1.rate_limited_accounts = m.rate_limited_accounts := by rw [hm1]
  have hf1 : m1.failed_accounts = m.failed_accounts := by rw [hm1]
  rcases hsel2 : get_next_available_account
      (mark_rate_limited m1 (get_account_id acc)) cmap today with ⟨o2, e2, m3⟩
  obtain ⟨i2, hm3⟩ := get_next_state hsel2
  have hrl3 : m3.rate_limited_accounts =
      m.rate_limited_accounts.insert (get_account_id acc) := by
    rw [hm3]
    simp [mark_rate_limited, hrl1]
  have hf3 : m3.failed_accounts = m.failed_accounts := by
    rw [hm3]
    simp [mark_rate_limited, hf1]
  cases o2 with
  | none =>
    simp [processRecipient, hsel, hout, hrle, hsel2, StepOut.mgrOut, hrl3, hf3]
  | some acc2 =>
    cases ho2 : outcome recip (get_account_id acc2) with
    | delivered =>
      simp [processRecipient, hsel, hout, hrle, hsel2, ho2, StepOut.mgrOut,
        hrl3, hf3]
    | failedWith err2 =>
      simp [processRecipient, hsel, hout, hrle, hsel2, ho2, StepOut.mgrOut,
        hrl3, hf3]

/-- Fixture: an error text matching both keyword sets ("429" is a rate-limit
indicator, "authentication failed" and "auth" are auth indicators). -/
def errBoth : Str := "429 authentication failed".data

/-- Fixture: oracle for the C10 witness — account A fails with the
both-sets error text, any other account delivers. -/
def outcomeC10 : Str → Str → SendR := fun _ a =>
  if a = idA then .failedWith errBoth else .delivered

/-- Fixture: a fresh two-account manager for the C10 witness. -/
def mgrC10 : Mgr := Mgr.init [accA, accB] 5

/-- C10 witness: the concrete error text matches both keyword sets, yet
processing marks account A rate-limited and leaves the failed set empty. -/
theorem c10_rate_limit_classified_before_auth_witness :
    is_rate_limit_error errBoth = true ∧ is_auth_error errBoth = true ∧
    ((processRecipient today0 outcomeC10 mgrC10 ctr0 r1).mgrOut mgrC10).rate_limited_accounts =
      ([] : List Str).insert idA ∧
    ((processRecipient today0 outcomeC10 mgrC10 ctr0 r1).mgrOut mgrC10).failed_accounts =
      ([] : List Str) := by
  refine ⟨by decide, by decide, ?_, ?_⟩
  · exact (c10_rate_limit_classified_before_auth today0 outcomeC10 mgrC10 ctr0 r1
      accA errBoth (by decide) (by decide) (by decide)).1
  · exact (c10_rate_limit_classified_before_auth today0 outcomeC10 mgrC10 ctr0 r1
      accA errBoth (by decide) (by decide) (by decide)).2

end GmailSender
